import Mathlib

/-!
Verification of the token-bridge-relayer Solana program (fee engine,
native-swap calculator, message codec, admin state machine, and the
transfer/redeem payment logic).

Machine integers are embedded as `Nat` with explicit bounds: Rust's
`u128::checked_mul`/`checked_div`/`checked_pow` and `u64::try_from` become
`Option Nat`-valued functions that fail exactly where the Rust operations
return `None`.
-/

namespace TokenBridgeRelayer

/-- One past the largest `u64` value: `2^64`. -/
def U64_BOUND : Nat := 2 ^ 64

/-- One past the largest `u128` value: `2^128`. -/
def U128_BOUND : Nat := 2 ^ 128

/-- `u128::checked_mul`: multiplication returning `none` on 128-bit overflow. -/
def checkedMul (a b : Nat) : Option Nat :=
  if a * b < U128_BOUND then some (a * b) else none

/-- `u128::checked_div`: division (truncating toward zero) returning `none`
exactly when the divisor is zero. -/
def checkedDiv (a b : Nat) : Option Nat :=
  if b = 0 then none else some (a / b)

/-- `u128::checked_pow(10, d)`: `10 ^ d` when it fits in 128 bits. -/
def checkedPow10 (d : Nat) : Option Nat :=
  if 10 ^ d < U128_BOUND then some (10 ^ d) else none

/-- `u64::try_from(x).ok()` applied to a `u128` value `x`. -/
def tryIntoU64 (a : Nat) : Option Nat :=
  if a < U64_BOUND then some a else none

/-- constants.rs: the global `SWAP_RATE_PRECISION` constant (`100_000_000`). -/
def SWAP_RATE_PRECISION : Nat := 100000000

/-- state/foreign_contract.rs, `ForeignContract::checked_token_fee`.
`fee` is the account's `fee` field (`self.fee`, a `u64`); `decimals` is the
token's decimal count (`u8`); `swap_rate` is the registered token's `u64` swap
rate; `relayer_fee_precision` is the `u32` configuration value.  The numerator
`fee * 10^decimals * SWAP_RATE_PRECISION` and the denominator
`swap_rate * relayer_fee_precision` are computed with `u128` checked
arithmetic, divided with `checked_div`, and narrowed with `u64::try_from`. -/
def checked_token_fee (fee decimals swap_rate relayer_fee_precision : Nat) :
    Option Nat :=
  (checkedPow10 decimals).bind fun pw =>
  (checkedMul fee pw).bind fun a =>
  (checkedMul a SWAP_RATE_PRECISION).bind fun numerator =>
  (checkedMul swap_rate relayer_fee_precision).bind fun denominator =>
  (checkedDiv numerator denominator).bind fun token_fee =>
  tryIntoU64 token_fee

/-- Claim C1: for every `usd_fee` (u64), `token_decimals ≤ 18`, `swap_rate`
(u64) and `relayer_fee_precision` (u32), `checked_token_fee` returns
`some (fee * 10^decimals * SWAP_RATE_PRECISION / (swap_rate * precision))`
(division truncating toward zero) exactly when every 128-bit product in the
chain fits, the denominator is nonzero and the quotient fits in a `u64`, and
returns `none` in every other case; moreover the regression vectors from the
source tests hold (decimals 10/9/8 at fee 42000000000, swap rate 6900000000,
precisions 10^8, and the overflow vector at fee `u64::MAX`). -/
theorem C1_checked_token_fee (fee swap_rate relayer_fee_precision decimals : Nat)
    (hd : decimals ≤ 18) :
    (checked_token_fee fee decimals swap_rate relayer_fee_precision =
      if fee * 10 ^ decimals < U128_BOUND ∧
         fee * 10 ^ decimals * SWAP_RATE_PRECISION < U128_BOUND ∧
         swap_rate * relayer_fee_precision < U128_BOUND ∧
         swap_rate * relayer_fee_precision ≠ 0 ∧
         fee * 10 ^ decimals * SWAP_RATE_PRECISION /
           (swap_rate * relayer_fee_precision) < U64_BOUND
      then some (fee * 10 ^ decimals * SWAP_RATE_PRECISION /
           (swap_rate * relayer_fee_precision))
      else none) ∧
    checked_token_fee 42000000000 10 6900000000 100000000 = some 60869565217 ∧
    checked_token_fee 42000000000 9 6900000000 100000000 = some 6086956521 ∧
    checked_token_fee 42000000000 8 6900000000 100000000 = some 608695652 ∧
    checked_token_fee (2 ^ 64 - 1) 8 1 1 = none := by
  refine ⟨?_, by decide, by decide, by decide, by decide⟩
  have h10 : 10 ^ decimals < U128_BOUND := by
    calc 10 ^ decimals ≤ 10 ^ 18 := Nat.pow_le_pow_right (by norm_num) hd
    _ < U128_BOUND := by norm_num [U128_BOUND]
  by_cases h1 : fee * 10 ^ decimals < U128_BOUND
  · by_cases h2 : fee * 10 ^ decimals * SWAP_RATE_PRECISION < U128_BOUND
    · by_cases h3 : swap_rate * relayer_fee_precision < U128_BOUND
      · by_cases h4 : swap_rate * relayer_fee_precision = 0
        · simp [checked_token_fee, checkedPow10, checkedMul, checkedDiv,
            tryIntoU64, h10, h1, h2, h3, h4]
        · by_cases h5 : fee * 10 ^ decimals * SWAP_RATE_PRECISION /
              (swap_rate * relayer_fee_precision) < U64_BOUND
          · simp [checked_token_fee, checkedPow10, checkedMul, checkedDiv,
              tryIntoU64, h10, h1, h2, h3, h4, h5]
          · simp [checked_token_fee, checkedPow10, checkedMul, checkedDiv,
              tryIntoU64, h10, h1, h2, h3, h4, h5]
      · simp [checked_token_fee, checkedPow10, checkedMul, checkedDiv,
          tryIntoU64, h10, h1, h2, h3]
    · simp [checked_token_fee, checkedPow10, checkedMul, checkedDiv,
        tryIntoU64, h10, h1, h2]
  · simp [checked_token_fee, checkedPow10, checkedMul, checkedDiv,
      tryIntoU64, h10, h1]

/-- Witness for C1: the characterization applied at the concrete source test
vector (decimals 10). -/
theorem C1_checked_token_fee_witness :
    checked_token_fee 42000000000 10 6900000000 100000000 = some 60869565217 :=
  (C1_checked_token_fee 42000000000 6900000000 100000000 10 (by norm_num)).2.1

/-- state/registered_token.rs: `RegisteredToken::NATIVE_DECIMALS` (SOL has 9
decimals). -/
def NATIVE_DECIMALS : Nat := 9

/-- state/registered_token.rs, `RegisteredToken::native_swap_rate`.
`swap_rate` is the account's `swap_rate` field; computes
`swap_rate_precision * sol_swap_rate / swap_rate` with `u128` checked
arithmetic, rejects a zero result (gross misconfiguration), then narrows to
`u64`. -/
def native_swap_rate (swap_rate sol_swap_rate swap_rate_precision : Nat) :
    Option Nat :=
  (checkedMul swap_rate_precision sol_swap_rate).bind fun a =>
  (checkedDiv a swap_rate).bind fun rate =>
  if rate = 0 then none else tryIntoU64 rate

/-- state/registered_token.rs, `RegisteredToken::calculate_max_swap_amount_in`.
`max_native_swap_amount` is the account's field.  The source computes the
decimal adjustment with the unchecked `u128::pow(10, Δ)`, embedded here as the
exact power `10 ^ Δ` (all reachable exponents fit in 128 bits). -/
def calculate_max_swap_amount_in
    (max_native_swap_amount decimals nsr swap_rate_precision : Nat) :
    Option Nat :=
  let amt : Option Nat :=
    if NATIVE_DECIMALS < decimals then
      (checkedMul max_native_swap_amount nsr).bind fun a =>
      (checkedMul a (10 ^ (decimals - NATIVE_DECIMALS))).bind fun b =>
      checkedDiv b swap_rate_precision
    else
      (checkedMul max_native_swap_amount nsr).bind fun a =>
      (checkedMul (10 ^ (NATIVE_DECIMALS - decimals)) swap_rate_precision).bind
        fun d => checkedDiv a d
  amt.bind tryIntoU64

/-- state/registered_token.rs, `RegisteredToken::calculate_native_swap_amounts`.
`swap_rate` and `max_native_swap_amount` are the registered token's fields;
returns the pair `(to_native_token_amount clamped to the maximum swappable
input, native amount out)`, `some (0, 0)` when swaps are disabled, not
requested, or the output floors to zero, and `none` on any overflow, zero
denominator or zero native swap rate in the chain. -/
def calculate_native_swap_amounts
    (swap_rate max_native_swap_amount decimals sol_swap_rate
      swap_rate_precision to_native_token_amount : Nat) : Option (Nat × Nat) :=
  if to_native_token_amount = 0 ∨ max_native_swap_amount = 0 then
    some (0, 0)
  else
    (native_swap_rate swap_rate sol_swap_rate swap_rate_precision).bind fun nsr =>
    (calculate_max_swap_amount_in max_native_swap_amount decimals nsr
      swap_rate_precision).bind fun maxIn =>
    let amt := if maxIn < to_native_token_amount then maxIn
               else to_native_token_amount
    let outOpt : Option Nat :=
      if NATIVE_DECIMALS < decimals then
        (checkedMul swap_rate_precision amt).bind fun a =>
        (checkedMul nsr (10 ^ (decimals - NATIVE_DECIMALS))).bind fun d =>
        checkedDiv a d
      else
        (checkedMul swap_rate_precision amt).bind fun a =>
        (checkedMul a (10 ^ (NATIVE_DECIMALS - decimals))).bind fun b =>
        checkedDiv b nsr
    outOpt.bind fun out =>
    if 0 < out then (tryIntoU64 out).bind fun o => some (amt, o)
    else some (0, 0)

/-- Claim C4: `calculate_native_swap_amounts` returns `some (0, 0)` whenever
the requested to-native amount is zero or the token's
`max_native_swap_amount` is zero, and it never returns a pair with a nonzero
`token_amount_in` and a zero `native_amount_out` (any returned pair with zero
output is exactly `(0, 0)`). -/
theorem C4_swap_zero_rules (swap_rate max_native decimals sol_rate prec
    to_native : Nat) :
    ((to_native = 0 ∨ max_native = 0) →
      calculate_native_swap_amounts swap_rate max_native decimals sol_rate
        prec to_native = some (0, 0)) ∧
    (∀ t o, calculate_native_swap_amounts swap_rate max_native decimals
        sol_rate prec to_native = some (t, o) → o = 0 → t = 0) := by
  constructor
  · intro h
    simp [calculate_native_swap_amounts, h]
  · intro t o h ho
    subst ho
    unfold calculate_native_swap_amounts at h
    split at h
    · have h' := h
      simp only [Option.some.injEq, Prod.mk.injEq] at h'
      exact h'.1.symm
    · rcases hnsr : native_swap_rate swap_rate sol_rate prec with _ | nsr <;>
        rw [hnsr] at h <;> simp only [Option.none_bind, Option.some_bind] at h
      · exact absurd h (by simp)
      rcases hmax : calculate_max_swap_amount_in max_native decimals nsr prec
          with _ | maxIn <;> rw [hmax] at h <;>
        simp only [Option.none_bind, Option.some_bind] at h
      · exact absurd h (by simp)
      rcases hout : (if NATIVE_DECIMALS < decimals then
            (checkedMul prec (if maxIn < to_native then maxIn else to_native)).bind
              fun a => (checkedMul nsr (10 ^ (decimals - NATIVE_DECIMALS))).bind
                fun d => checkedDiv a d
          else
            (checkedMul prec (if maxIn < to_native then maxIn else to_native)).bind
              fun a => (checkedMul a (10 ^ (NATIVE_DECIMALS - decimals))).bind
                fun b => checkedDiv b nsr) with _ | out <;>
        rw [hout] at h <;> simp only [Option.none_bind, Option.some_bind] at h
      · exact absurd h (by simp)
      split at h
      · rename_i hpos
        rcases h64 : tryIntoU64 out with _ | o' <;> rw [h64] at h <;>
          simp only [Option.none_bind, Option.some_bind] at h
        · exact absurd h (by simp)
        · have : o' = 0 := by
            have := h
            simp only [Option.some.injEq, Prod.mk.injEq] at this
            exact this.2.symm ▸ rfl
          have h0 : out = 0 := by
            unfold tryIntoU64 at h64
            split at h64 <;> simp_all
          omega
      · simp only [Option.some.injEq, Prod.mk.injEq] at h
        exact h.1.symm

/-- Witness for C4 (the statement is universally quantified with inner
hypotheses): instantiated at the source test vector where a tiny requested
amount floors the output to zero, checking both conjuncts concretely. -/
theorem C4_swap_zero_rules_witness :
    calculate_native_swap_amounts 1000000000 1000000000 10 42000000000
        100000000 0 = some (0, 0) ∧ (0 : Nat) = 0 :=
  ⟨(C4_swap_zero_rules 1000000000 1000000000 10 42000000000 100000000 0).1
      (Or.inl rfl),
    (C4_swap_zero_rules 1000000000 1000000000 10 42000000000 100000000 1).2
      0 0 (by decide) rfl⟩

/-- Inversion for `native_swap_rate`: a successful result means the 128-bit
product fit, the token swap rate was nonzero, and the (nonzero) quotient fit
in a `u64`. -/
theorem native_swap_rate_eq_some {sr ssr p nsr : Nat}
    (h : native_swap_rate sr ssr p = some nsr) :
    p * ssr < U128_BOUND ∧ sr ≠ 0 ∧ nsr = p * ssr / sr ∧ nsr ≠ 0 ∧
      nsr < U64_BOUND := by
  unfold native_swap_rate checkedMul at h
  by_cases h1 : p * ssr < U128_BOUND
  · rw [if_pos h1, Option.some_bind] at h
    unfold checkedDiv at h
    by_cases h2 : sr = 0
    · rw [if_pos h2, Option.none_bind] at h; exact absurd h (by simp)
    · rw [if_neg h2, Option.some_bind] at h
      by_cases h3 : p * ssr / sr = 0
      · rw [if_pos h3] at h; exact absurd h (by simp)
      · rw [if_neg h3] at h
        unfold tryIntoU64 at h
        by_cases h4 : p * ssr / sr < U64_BOUND
        · rw [if_pos h4] at h
          simp only [Option.some.injEq] at h
          exact ⟨h1, h2, h.symm, h ▸ h3, h ▸ h4⟩
        · rw [if_neg h4] at h; exact absurd h (by simp)
  · rw [if_neg h1, Option.none_bind] at h; exact absurd h (by simp)

/-- Inversion for `calculate_max_swap_amount_in`: a successful result is the
floor quotient of the source's two decimal-adjustment branches, with the
respective denominator nonzero. -/
theorem calculate_max_swap_amount_in_eq_some {mx d nsr p m : Nat}
    (h : calculate_max_swap_amount_in mx d nsr p = some m) :
    (NATIVE_DECIMALS < d →
      p ≠ 0 ∧ m = mx * nsr * 10 ^ (d - NATIVE_DECIMALS) / p) ∧
    (d ≤ NATIVE_DECIMALS →
      10 ^ (NATIVE_DECIMALS - d) * p ≠ 0 ∧
      m = mx * nsr / (10 ^ (NATIVE_DECIMALS - d) * p)) := by
  unfold calculate_max_swap_amount_in at h
  by_cases hd : NATIVE_DECIMALS < d
  · rw [if_pos hd] at h
    refine ⟨fun _ => ?_, fun hle => absurd hd (by omega)⟩
    unfold checkedMul at h
    by_cases h1 : mx * nsr < U128_BOUND
    · rw [if_pos h1, Option.some_bind] at h
      by_cases h2 : mx * nsr * 10 ^ (d - NATIVE_DECIMALS) < U128_BOUND
      · rw [if_pos h2, Option.some_bind] at h
        unfold checkedDiv at h
        by_cases h3 : p = 0
        · rw [if_pos h3, Option.none_bind] at h; exact absurd h (by simp)
        · rw [if_neg h3, Option.some_bind] at h
          unfold tryIntoU64 at h
          by_cases h4 : mx * nsr * 10 ^ (d - NATIVE_DECIMALS) / p < U64_BOUND
          · rw [if_pos h4] at h
            simp only [Option.some.injEq] at h
            exact ⟨h3, h.symm⟩
          · rw [if_neg h4] at h; exact absurd h (by simp)
      · rw [if_neg h2, Option.none_bind] at h; exact absurd h (by simp)
    · rw [if_neg h1, Option.none_bind] at h; exact absurd h (by simp)
  · rw [if_neg hd] at h
    refine ⟨fun hlt => absurd hlt hd, fun _ => ?_⟩
    unfold checkedMul at h
    by_cases h1 : mx * nsr < U128_BOUND
    · rw [if_pos h1, Option.some_bind] at h
      by_cases h2 : 10 ^ (NATIVE_DECIMALS - d) * p < U128_BOUND
      · rw [if_pos h2, Option.some_bind] at h
        unfold checkedDiv at h
        by_cases h3 : 10 ^ (NATIVE_DECIMALS - d) * p = 0
        · rw [if_pos h3, Option.none_bind] at h; exact absurd h (by simp)
        · rw [if_neg h3, Option.some_bind] at h
          unfold tryIntoU64 at h
          by_cases h4 : mx * nsr / (10 ^ (NATIVE_DECIMALS - d) * p) < U64_BOUND
          · rw [if_pos h4] at h
            simp only [Option.some.injEq] at h
            exact ⟨h3, h.symm⟩
          · rw [if_neg h4] at h; exact absurd h (by simp)
      · rw [if_neg h2, Option.none_bind] at h; exact absurd h (by simp)
    · rw [if_neg h1, Option.none_bind] at h; exact absurd h (by simp)

/-- Claim C3: whenever `calculate_native_swap_amounts` succeeds with a
positive requested amount and a positive `max_native_swap_amount`, the
returned `token_amount_in` is `min requested max_swap_amount_in` for the
value computed by `calculate_max_swap_amount_in` (or `0` by the zero-output
rule), and `native_amount_out` never exceeds `max_native_swap_amount`. -/
theorem C3_swap_clamp_and_cap (sr mx d ssr p tn t o : Nat)
    (htn : 0 < tn) (hmx : 0 < mx)
    (h : calculate_native_swap_amounts sr mx d ssr p tn = some (t, o)) :
    (∃ nsr maxIn, native_swap_rate sr ssr p = some nsr ∧
      calculate_max_swap_amount_in mx d nsr p = some maxIn ∧
      (t = min tn maxIn ∨ t = 0)) ∧ o ≤ mx := by
  unfold calculate_native_swap_amounts at h
  rw [if_neg (by omega)] at h
  rcases hnsr : native_swap_rate sr ssr p with _ | nsr <;> rw [hnsr] at h
  · exact absurd h (by simp)
  simp only [Option.some_bind] at h
  rcases hmaxIn : calculate_max_swap_amount_in mx d nsr p with _ | maxIn <;>
    rw [hmaxIn] at h
  · exact absurd h (by simp)
  simp only [Option.some_bind] at h
  set amt := if maxIn < tn then maxIn else tn with hamt
  have hamtmin : amt = min tn maxIn := by rw [hamt]; split <;> omega
  have hamtle : amt ≤ maxIn := by rw [hamt]; split <;> omega
  have hnsr0 : nsr ≠ 0 := (native_swap_rate_eq_some hnsr).2.2.2.1
  by_cases hd : NATIVE_DECIMALS < d
  · -- token has more decimals than SOL
    rw [if_pos hd] at h
    obtain ⟨hp0, hm⟩ := (calculate_max_swap_amount_in_eq_some hmaxIn).1 hd
    set E := 10 ^ (d - NATIVE_DECIMALS) with hE
    have hE0 : 0 < E := Nat.pos_pow_of_pos _ (by norm_num)
    unfold checkedMul at h
    by_cases h1 : p * amt < U128_BOUND
    · rw [if_pos h1, Option.some_bind] at h
      by_cases h2 : nsr * E < U128_BOUND
      · rw [if_pos h2, Option.some_bind] at h
        unfold checkedDiv at h
        by_cases h3 : nsr * E = 0
        · rw [if_pos h3, Option.none_bind] at h; exact absurd h (by simp)
        · rw [if_neg h3, Option.some_bind] at h
          set out := p * amt / (nsr * E) with hout
          by_cases hpos : 0 < out
          · rw [if_pos hpos] at h
            unfold tryIntoU64 at h
            by_cases h4 : out < U64_BOUND
            · rw [if_pos h4, Option.some_bind] at h
              simp only [Option.some.injEq, Prod.mk.injEq] at h
              obtain ⟨rfl, rfl⟩ := h
              refine ⟨⟨nsr, maxIn, rfl, hmaxIn, Or.inl hamtmin⟩, ?_⟩
              have key1 : p * amt ≤ p * maxIn := Nat.mul_le_mul_left _ hamtle
              have key2 : p * maxIn ≤ mx * nsr * E := by
                rw [hm, mul_comm]
                exact Nat.div_mul_le_self _ _
              calc p * amt / (nsr * E) ≤ mx * nsr * E / (nsr * E) :=
                    Nat.div_le_div_right (le_trans key1 key2)
                _ = mx := by
                    rw [mul_assoc]
                    exact Nat.mul_div_cancel mx (Nat.pos_of_ne_zero h3)
            · rw [if_neg h4, Option.none_bind] at h; exact absurd h (by simp)
          · rw [if_neg hpos] at h
            simp only [Option.some.injEq, Prod.mk.injEq] at h
            obtain ⟨rfl, rfl⟩ := h
            exact ⟨⟨nsr, maxIn, rfl, hmaxIn, Or.inr rfl⟩, Nat.zero_le _⟩
      · rw [if_neg h2, Option.none_bind] at h; exact absurd h (by simp)
    · rw [if_neg h1, Option.none_bind] at h; exact absurd h (by simp)
  · -- token has at most SOL's 9 decimals
    rw [if_neg hd] at h
    obtain ⟨hdn0, hm⟩ :=
      (calculate_max_swap_amount_in_eq_some hmaxIn).2 (by omega)
    set E := 10 ^ (NATIVE_DECIMALS - d) with hE
    unfold checkedMul at h
    by_cases h1 : p * amt < U128_BOUND
    · rw [if_pos h1, Option.some_bind] at h
      by_cases h2 : p * amt * E < U128_BOUND
      · rw [if_pos h2, Option.some_bind] at h
        unfold checkedDiv at h
        by_cases h3 : nsr = 0
        · exact absurd h3 hnsr0
        · rw [if_neg h3, Option.some_bind] at h
          set out := p * amt * E / nsr with hout
          by_cases hpos : 0 < out
          · rw [if_pos hpos] at h
            unfold tryIntoU64 at h
            by_cases h4 : out < U64_BOUND
            · rw [if_pos h4, Option.some_bind] at h
              simp only [Option.some.injEq, Prod.mk.injEq] at h
              obtain ⟨rfl, rfl⟩ := h
              refine ⟨⟨nsr, maxIn, rfl, hmaxIn, Or.inl hamtmin⟩, ?_⟩
              have key1 : p * amt * E ≤ p * maxIn * E :=
                Nat.mul_le_mul_right _ (Nat.mul_le_mul_left _ hamtle)
              have key2 : p * maxIn * E ≤ mx * nsr := by
                have hre : p * maxIn * E = maxIn * (E * p) := by ring
                rw [hre, hm]
                exact Nat.div_mul_le_self _ _
              calc p * amt * E / nsr ≤ mx * nsr / nsr :=
                    Nat.div_le_div_right (le_trans key1 key2)
                _ = mx := Nat.mul_div_cancel mx (Nat.pos_of_ne_zero h3)
            · rw [if_neg h4, Option.none_bind] at h; exact absurd h (by simp)
          · rw [if_neg hpos] at h
            simp only [Option.some.injEq, Prod.mk.injEq] at h
            obtain ⟨rfl, rfl⟩ := h
            exact ⟨⟨nsr, maxIn, rfl, hmaxIn, Or.inr rfl⟩, Nat.zero_le _⟩
      · rw [if_neg h2, Option.none_bind] at h; exact absurd h (by simp)
    · rw [if_neg h1, Option.none_bind] at h; exact absurd h (by simp)

/-- Witness for C3: the source's clamping test vector (requested amount
6900000000000 exceeds the maximum swappable input; the result is clamped and
the native output hits the 1-SOL cap exactly). -/
theorem C3_swap_clamp_and_cap_witness :
    (∃ nsr maxIn,
      native_swap_rate 1000000000 42000000000 100000000 = some nsr ∧
      calculate_max_swap_amount_in 1000000000 10 nsr 100000000 = some maxIn ∧
      ((420000000000 : Nat) = min 6900000000000 maxIn ∨
        (420000000000 : Nat) = 0)) ∧
    (1000000000 : Nat) ≤ 1000000000 :=
  C3_swap_clamp_and_cap 1000000000 1000000000 10 42000000000 100000000
    6900000000000 420000000000 1000000000 (by norm_num) (by norm_num)
    (by decide)

/-- message.rs: `PAYLOAD_ID_TRANSFER_WITH_RELAY` (the only discriminant). -/
def PAYLOAD_ID_TRANSFER_WITH_RELAY : Nat := 1

/-- message.rs: `PAD_U64`, the length of each zero-padding region. -/
def PAD_U64 : Nat := 24

/-- message.rs: the `TokenBridgeRelayerMessage::TransferWithRelay` variant
(the enum's only variant); bytes are embedded as `Nat` values below 256. -/
structure TransferWithRelay where
  target_relayer_fee : Nat
  to_native_token_amount : Nat
  recipient : List Nat
deriving DecidableEq

/-- `u64::to_be_bytes`: the eight big-endian bytes of `x`. -/
def u64BeBytes (x : Nat) : List Nat :=
  [x / 2 ^ 56 % 256, x / 2 ^ 48 % 256, x / 2 ^ 40 % 256, x / 2 ^ 32 % 256,
   x / 2 ^ 24 % 256, x / 2 ^ 16 % 256, x / 2 ^ 8 % 256, x % 256]

/-- `u64::from_be_bytes` on a byte list. -/
def u64FromBeBytes (l : List Nat) : Nat :=
  l.foldl (fun acc b => acc * 256 + b) 0

/-- message.rs, `AnchorSerialize for TokenBridgeRelayerMessage`: the writer
emits the discriminant, 24 zero bytes, the big-endian fee, 24 zero bytes, the
big-endian to-native amount, and the 32 recipient bytes, in order. -/
def serializeMessage (m : TransferWithRelay) : List Nat :=
  [PAYLOAD_ID_TRANSFER_WITH_RELAY] ++
    (List.replicate PAD_U64 0 ++ (u64BeBytes m.target_relayer_fee ++
      (List.replicate PAD_U64 0 ++ (u64BeBytes m.to_native_token_amount ++
        m.recipient))))

/-- message.rs, `AnchorDeserialize for TokenBridgeRelayerMessage`: rejects any
buffer whose length is not exactly 97, reads the discriminant, checks each
24-byte padding region is all zeros before reading each big-endian `u64`, and
takes the trailing 32 bytes as the recipient. -/
def deserializeMessage (buf : List Nat) : Option TransferWithRelay :=
  if buf.length = 97 then
    match buf with
    | [] => none
    | tag :: rest =>
      if tag = PAYLOAD_ID_TRANSFER_WITH_RELAY then
        if rest.take 24 = List.replicate 24 0 then
          let fee := u64FromBeBytes ((rest.drop 24).take 8)
          let rest2 := rest.drop 32
          if rest2.take 24 = List.replicate 24 0 then
            some ⟨fee, u64FromBeBytes ((rest2.drop 24).take 8), rest2.drop 32⟩
          else none
        else none
      else none
  else none

/-- Big-endian `u64` round trip: decoding the eight emitted bytes recovers
any value below `2^64`. -/
theorem u64FromBeBytes_u64BeBytes (x : Nat) (hx : x < U64_BOUND) :
    u64FromBeBytes (u64BeBytes x) = x := by
  have hx' : x < 2 ^ 64 := hx
  simp only [u64BeBytes, u64FromBeBytes, List.foldl]
  omega

/-- Claim C5: serialization of `TransferWithRelay` is exactly the 97-byte
layout `[tag 1][24 zeros][8-byte BE fee][24 zeros][8-byte BE amount][32-byte
recipient]`, and deserializing it returns the identical field values. -/
theorem C5_serialize_roundtrip (fee amt : Nat) (r : List Nat)
    (hfee : fee < U64_BOUND) (hamt : amt < U64_BOUND) (hr : r.length = 32) :
    serializeMessage ⟨fee, amt, r⟩ =
      [1] ++ List.replicate 24 0 ++ u64BeBytes fee ++ List.replicate 24 0 ++
        u64BeBytes amt ++ r ∧
    (serializeMessage ⟨fee, amt, r⟩).length = 97 ∧
    deserializeMessage (serializeMessage ⟨fee, amt, r⟩) =
      some ⟨fee, amt, r⟩ := by
  have hlayout : serializeMessage ⟨fee, amt, r⟩ =
      [1] ++ List.replicate 24 0 ++ u64BeBytes fee ++ List.replicate 24 0 ++
        u64BeBytes amt ++ r := by
    simp [serializeMessage, PAYLOAD_ID_TRANSFER_WITH_RELAY, PAD_U64]
  have hlen : (serializeMessage ⟨fee, amt, r⟩).length = 97 := by
    simp [serializeMessage, PAYLOAD_ID_TRANSFER_WITH_RELAY, PAD_U64,
      u64BeBytes, hr]
  refine ⟨hlayout, hlen, ?_⟩
  have hser : serializeMessage ⟨fee, amt, r⟩ =
      1 :: (List.replicate 24 0 ++ (u64BeBytes fee ++
        (List.replicate 24 0 ++ (u64BeBytes amt ++ r)))) := by
    simp [serializeMessage, PAYLOAD_ID_TRANSFER_WITH_RELAY, PAD_U64]
  rw [hser] at hlen ⊢
  have hpadlen : (List.replicate 24 (0 : Nat)).length = 24 := by simp
  have hfee8 : (u64BeBytes fee).length = 8 := by simp [u64BeBytes]
  have hamt8 : (u64BeBytes amt).length = 8 := by simp [u64BeBytes]
  unfold deserializeMessage
  rw [if_pos hlen]
  simp only [PAYLOAD_ID_TRANSFER_WITH_RELAY, if_pos rfl]
  rw [List.take_left' hpadlen, if_pos rfl, List.drop_left' hpadlen]
  rw [show (32 : Nat) = 24 + 8 by norm_num, ← List.drop_drop,
    List.drop_left' hpadlen, List.take_left' hfee8, List.drop_left' hfee8,
    List.take_left' hpadlen, if_pos rfl, List.drop_left' hpadlen,
    ← List.drop_drop, List.drop_left' hpadlen, List.take_left' hamt8,
    List.drop_left' hamt8]
  rw [u64FromBeBytes_u64BeBytes fee hfee, u64FromBeBytes_u64BeBytes amt hamt]
  simp

/-- Witness for C5: the round trip at the source test's concrete values. -/
theorem C5_serialize_roundtrip_witness :
    serializeMessage ⟨6900000, 100000000, List.replicate 32 7⟩ =
      [1] ++ List.replicate 24 0 ++ u64BeBytes 6900000 ++
        List.replicate 24 0 ++ u64BeBytes 100000000 ++ List.replicate 32 7 ∧
    (serializeMessage ⟨6900000, 100000000, List.replicate 32 7⟩).length = 97 ∧
    deserializeMessage
        (serializeMessage ⟨6900000, 100000000, List.replicate 32 7⟩) =
      some ⟨6900000, 100000000, List.replicate 32 7⟩ :=
  C5_serialize_roundtrip 6900000 100000000 (List.replicate 32 7)
    (by norm_num [U64_BOUND]) (by norm_num [U64_BOUND]) (by simp)

/-- Claim C6: deserialization fails (returns `none`, never panicking — the
function is total) on every buffer whose length is not 97, on every 97-byte
buffer whose leading discriminant is not 1, and on every 97-byte buffer with
discriminant 1 in which either 24-byte padding region is not all zeros. -/
theorem C6_deserialize_rejects (buf : List Nat) :
    (buf.length ≠ 97 → deserializeMessage buf = none) ∧
    (∀ tag rest, buf = tag :: rest → buf.length = 97 → tag ≠ 1 →
      deserializeMessage buf = none) ∧
    (buf.length = 97 → buf.head? = some 1 →
      (buf.tail.take 24 ≠ List.replicate 24 0 ∨
        (buf.tail.drop 32).take 24 ≠ List.replicate 24 0) →
      deserializeMessage buf = none) := by
  refine ⟨fun h => ?_, fun tag rest hb hl ht => ?_, fun hl hh hpad => ?_⟩
  · unfold deserializeMessage
    rw [if_neg h]
  · subst hb
    unfold deserializeMessage
    rw [if_pos hl]
    simp only [PAYLOAD_ID_TRANSFER_WITH_RELAY]
    rw [if_neg ht]
  · match buf, hl, hh, hpad with
    | tag :: rest, hl, hh, hpad =>
      simp only [List.head?_cons, Option.some.injEq] at hh
      subst hh
      simp only [List.tail_cons] at hpad
      unfold deserializeMessage
      rw [if_pos hl]
      simp only [PAYLOAD_ID_TRANSFER_WITH_RELAY, if_pos rfl]
      by_cases h1 : rest.take 24 = List.replicate 24 0
      · rw [if_pos h1]
        rcases hpad with hpad | hpad
        · exact absurd h1 hpad
        · rw [if_neg hpad]
          simp
      · rw [if_neg h1]
        simp

/-- Witness for C6: a 96-byte buffer, a 97-byte buffer with a bad
discriminant, and a 97-byte buffer with a nonzero padding byte are all
rejected. -/
theorem C6_deserialize_rejects_witness :
    deserializeMessage (List.replicate 96 0) = none ∧
    deserializeMessage (2 :: List.replicate 96 0) = none ∧
    deserializeMessage (1 :: List.replicate 96 5) = none :=
  ⟨(C6_deserialize_rejects (List.replicate 96 0)).1 (by simp),
    (C6_deserialize_rejects (2 :: List.replicate 96 0)).2.1 2
      (List.replicate 96 0) rfl (by simp) (by norm_num),
    (C6_deserialize_rejects (1 :: List.replicate 96 5)).2.2 (by simp)
      (by simp) (Or.inl (by decide))⟩

/-- error.rs: the program's error kinds used by the modelled instructions
(`AccountNotInitialized` is Anchor's own error for a missing account). -/
inductive TokenBridgeRelayerError where
  | InvalidRecipient
  | InvalidToNativeAmount
  | FeeCalculationError
  | InsufficientFunds
  | OwnerOnly
  | InvalidPublicKey
  | AlreadyTheOwner
  | NotPendingOwner
  | OwnerOrAssistantOnly
  | ZeroSwapRate
  | AccountNotInitialized
deriving DecidableEq

/-- wormhole_anchor_sdk: `CHAIN_ID_SOLANA` (Solana's Wormhole chain id). -/
def CHAIN_ID_SOLANA : Nat := 1

/-- utils.rs, `valid_foreign_address`: nonzero chain, not Solana's own chain
id, and a nonzero 32-byte address. -/
def valid_foreign_address (chain : Nat) (address : List Nat) : Bool :=
  chain != 0 && chain != CHAIN_ID_SOLANA && address != List.replicate 32 0

/-- Modelled from the spec: `normalize_amount` of the external
message-passing bridge collaborator (`wormhole_anchor_sdk::token_bridge`,
whose sources are not part of this repository): conversion of an amount to
the bridge's fixed 8-decimal external representation, dividing away any
decimals beyond 8. -/
def normalize_amount (amount decimals : Nat) : Nat :=
  if 8 < decimals then amount / 10 ^ (decimals - 8) else amount

/-- Modelled from the spec: `denormalize_amount` of the external
message-passing bridge collaborator, converting an 8-decimal amount back to
the token's decimal count by multiplying the decimals beyond 8 back in. -/
def denormalize_amount (amount decimals : Nat) : Nat :=
  if 8 < decimals then amount * 10 ^ (decimals - 8) else amount

/-- processor/transfer_tokens_with_relay/mod.rs, `prepare_transfer` (the
validation and message-construction logic; the custody-delegation CPI has no
effect on the returned value).  `relayer_fee_precision` is the sender
config's field, `decimals` the mint's, `swap_rate` the registered token's,
`contract_fee` the foreign contract's `fee`. -/
def prepare_transfer (relayer_fee_precision decimals swap_rate contract_fee
    amount to_native_token_amount recipient_chain : Nat)
    (recipient : List Nat) :
    Except TokenBridgeRelayerError TransferWithRelay :=
  if ¬ valid_foreign_address recipient_chain recipient then
    .error .InvalidRecipient
  else if ¬ (to_native_token_amount = 0 ∨
      0 < normalize_amount to_native_token_amount decimals) then
    .error .InvalidToNativeAmount
  else
    match checked_token_fee contract_fee decimals swap_rate
        relayer_fee_precision with
    | none => .error .FeeCalculationError
    | some relayer_fee =>
      if ¬ (normalize_amount to_native_token_amount decimals +
          normalize_amount relayer_fee decimals <
          normalize_amount amount decimals) then
        .error .InsufficientFunds
      else
        .ok ⟨normalize_amount relayer_fee decimals,
          normalize_amount to_native_token_amount decimals, recipient⟩

/-- Claim C7: `prepare_transfer` fails with `InsufficientFunds` (producing no
message) unless the normalized amount strictly exceeds the normalized
to-native amount plus the normalized relayer fee; in particular it fails on
exact equality, and every successful run certifies the strict inequality. -/
theorem C7_strict_excess_required (p d sr cf amount tn chain : Nat)
    (r : List Nat) :
    (∀ rf, valid_foreign_address chain r = true →
      (tn = 0 ∨ 0 < normalize_amount tn d) →
      checked_token_fee cf d sr p = some rf →
      normalize_amount amount d =
        normalize_amount tn d + normalize_amount rf d →
      prepare_transfer p d sr cf amount tn chain r =
        .error .InsufficientFunds) ∧
    (∀ msg, prepare_transfer p d sr cf amount tn chain r = .ok msg →
      ∃ rf, checked_token_fee cf d sr p = some rf ∧
        normalize_amount tn d + normalize_amount rf d <
          normalize_amount amount d) := by
  constructor
  · intro rf h1 h2 h3 h4
    unfold prepare_transfer
    rw [if_neg (not_not_intro h1), if_neg (not_not_intro h2), h3]
    show (if ¬ (normalize_amount tn d + normalize_amount rf d <
        normalize_amount amount d) then
        (Except.error TokenBridgeRelayerError.InsufficientFunds :
          Except TokenBridgeRelayerError TransferWithRelay)
      else Except.ok ⟨normalize_amount rf d, normalize_amount tn d, r⟩) =
      Except.error TokenBridgeRelayerError.InsufficientFunds
    rw [if_pos (by omega)]
  · intro msg h
    unfold prepare_transfer at h
    by_cases h1 : valid_foreign_address chain r = true
    · rw [if_neg (not_not_intro h1)] at h
      by_cases h2 : tn = 0 ∨ 0 < normalize_amount tn d
      · rw [if_neg (not_not_intro h2)] at h
        rcases h3 : checked_token_fee cf d sr p with _ | rf <;> rw [h3] at h
        · exact absurd h (by simp)
        · replace h : (if ¬ (normalize_amount tn d + normalize_amount rf d <
                normalize_amount amount d) then
                (Except.error TokenBridgeRelayerError.InsufficientFunds :
                  Except TokenBridgeRelayerError TransferWithRelay)
              else Except.ok ⟨normalize_amount rf d, normalize_amount tn d,
                r⟩) = Except.ok msg := h
          by_cases h4 : normalize_amount tn d + normalize_amount rf d <
              normalize_amount amount d
          · exact ⟨rf, rfl, h4⟩
          · rw [if_pos h4] at h
            exact absurd h (by simp)
      · rw [if_pos h2] at h
        exact absurd h (by simp)
    · rw [if_pos h1] at h
      exact absurd h (by simp)

/-- Witness for C7: at 8 decimals (identity normalization), zero USD fee and
a transfer amount exactly equal to the to-native amount plus the zero fee,
the transfer is rejected with `InsufficientFunds`. -/
theorem C7_strict_excess_required_witness :
    prepare_transfer 1 8 1 0 5 5 2 (List.replicate 32 1) =
      .error .InsufficientFunds :=
  (C7_strict_excess_required 1 8 1 0 5 5 2 (List.replicate 32 1)).1 0
    (by decide) (Or.inr (by decide)) (by decide) (by decide)

/-- state/owner_config.rs, `OwnerConfig` (public keys are embedded as `Nat`;
the all-zero `Pubkey::default()` is `0`). -/
structure OwnerConfig where
  owner : Nat
  assistant : Nat
  pending_owner : Option Nat
deriving DecidableEq

/-- state/owner_config.rs, `OwnerConfig::is_owner`. -/
def OwnerConfig.is_owner (c : OwnerConfig) (key : Nat) : Bool :=
  c.owner == key

/-- state/owner_config.rs, `OwnerConfig::is_authorized`: owner or assistant. -/
def OwnerConfig.is_authorized (c : OwnerConfig) (key : Nat) : Bool :=
  c.is_owner key || (c.assistant == key)

/-- state/owner_config.rs, `OwnerConfig::is_pending_owner`. -/
def OwnerConfig.is_pending_owner (c : OwnerConfig) (key : Nat) : Bool :=
  c.pending_owner == some key

/-- state/sender_config.rs: the fields of `SenderConfig` relevant to the
claims (`owner`; the Token Bridge addresses, bump and precision fields do not
participate in the ownership protocol). -/
structure SenderConfig where
  owner : Nat
deriving DecidableEq

/-- state/redeemer_config.rs: the fields of `RedeemerConfig` relevant to the
claims. -/
structure RedeemerConfig where
  owner : Nat
deriving DecidableEq

/-- processor/admin/ownership.rs, `submit_ownership_transfer_request`,
including the `ManageOwnership` context's `has_one = owner` constraint (the
signer must be the stored owner). -/
def submit_ownership_transfer_request (signer : Nat) (oc : OwnerConfig)
    (new_owner : Nat) : Except TokenBridgeRelayerError OwnerConfig :=
  if signer ≠ oc.owner then .error .OwnerOnly
  else if new_owner = 0 then .error .InvalidPublicKey
  else if new_owner = oc.owner then .error .AlreadyTheOwner
  else .ok { oc with pending_owner := some new_owner }

/-- processor/admin/ownership.rs, `confirm_ownership_transfer_request`: the
signer must be the pending owner; the owner of the owner, sender and
redeemer configs is updated and the pending owner cleared in one atomic
instruction. -/
def confirm_ownership_transfer_request (signer : Nat) (oc : OwnerConfig)
    (sender : SenderConfig) (redeemer : RedeemerConfig) :
    Except TokenBridgeRelayerError
      (OwnerConfig × SenderConfig × RedeemerConfig) :=
  if ¬ oc.is_pending_owner signer then .error .NotPendingOwner
  else .ok ({ oc with owner := signer, pending_owner := none },
    { sender with owner := signer }, { redeemer with owner := signer })

/-- processor/admin/ownership.rs, `cancel_ownership_transfer_request` with
the `ManageOwnership` constraint; it touches neither the sender nor the
redeemer config. -/
def cancel_ownership_transfer_request (signer : Nat) (oc : OwnerConfig) :
    Except TokenBridgeRelayerError OwnerConfig :=
  if signer ≠ oc.owner then .error .OwnerOnly
  else .ok { oc with pending_owner := none }

/-- Claim C8: the two-phase ownership transfer.  `submit` requires the
current owner as caller and a nonzero, distinct new owner, and records it as
pending; `confirm` rejects every caller other than the pending owner with
`NotPendingOwner` and otherwise atomically installs the pending owner in the
owner, sender, and redeemer configs while clearing the pending slot; `cancel`
requires the owner and clears the pending slot leaving every owner field (and
the sender/redeemer configs, which it does not touch) unchanged. -/
theorem C8_ownership_state_machine (signer new_owner : Nat) (oc : OwnerConfig)
    (sender : SenderConfig) (redeemer : RedeemerConfig) :
    (signer ≠ oc.owner →
      submit_ownership_transfer_request signer oc new_owner =
        .error .OwnerOnly) ∧
    (signer = oc.owner → new_owner = 0 →
      submit_ownership_transfer_request signer oc new_owner =
        .error .InvalidPublicKey) ∧
    (signer = oc.owner → new_owner ≠ 0 → new_owner = oc.owner →
      submit_ownership_transfer_request signer oc new_owner =
        .error .AlreadyTheOwner) ∧
    (signer = oc.owner → new_owner ≠ 0 → new_owner ≠ oc.owner →
      submit_ownership_transfer_request signer oc new_owner =
        .ok { oc with pending_owner := some new_owner }) ∧
    (oc.is_pending_owner signer = false →
      confirm_ownership_transfer_request signer oc sender redeemer =
        .error .NotPendingOwner) ∧
    (oc.pending_owner = some signer →
      confirm_ownership_transfer_request signer oc sender redeemer =
        .ok ({ oc with owner := signer, pending_owner := none },
          { sender with owner := signer },
          { redeemer with owner := signer })) ∧
    (signer = oc.owner →
      cancel_ownership_transfer_request signer oc =
        .ok { oc with pending_owner := none }) := by
  refine ⟨fun h => ?_, fun h h0 => ?_, fun h h0 hsame => ?_,
    fun h h0 hdiff => ?_, fun h => ?_, fun h => ?_, fun h => ?_⟩
  · unfold submit_ownership_transfer_request
    rw [if_pos h]
  · unfold submit_ownership_transfer_request
    rw [if_neg (by omega), if_pos h0]
  · unfold submit_ownership_transfer_request
    rw [if_neg (by omega), if_neg h0, if_pos hsame]
  · unfold submit_ownership_transfer_request
    rw [if_neg (by omega), if_neg h0, if_neg hdiff]
  · unfold confirm_ownership_transfer_request
    rw [if_pos (by simp [h])]
  · unfold confirm_ownership_transfer_request
    rw [if_neg (by simp [OwnerConfig.is_pending_owner, h])]
  · unfold cancel_ownership_transfer_request
    rw [if_neg (by omega)]

/-- Witness for C8: a concrete submit-then-confirm run through the state
machine (owner 3, assistant 4, new owner 7). -/
theorem C8_ownership_state_machine_witness :
    submit_ownership_transfer_request 3 ⟨3, 4, none⟩ 7 =
      .ok ⟨3, 4, some 7⟩ ∧
    confirm_ownership_transfer_request 7 ⟨3, 4, some 7⟩ ⟨3⟩ ⟨3⟩ =
      .ok (⟨7, 4, none⟩, ⟨7⟩, ⟨7⟩) :=
  ⟨(C8_ownership_state_machine 3 7 ⟨3, 4, none⟩ ⟨3⟩ ⟨3⟩).2.2.2.1 rfl
      (by norm_num) (by norm_num),
    (C8_ownership_state_machine 7 0 ⟨3, 4, some 7⟩ ⟨3⟩ ⟨3⟩).2.2.2.2.2.1 rfl⟩

/-- processor/admin snapshot of the token registry: the `RegisteredToken`
account as created by processor/admin/register_token.rs, carrying
`swap_rate` and `max_native_swap_amount`.  In this snapshot the account's
existence at the token's PDA itself records registration:
processor/admin/deregister_token.rs closes the account ("This account also
determines if a mint is registered or not"). -/
structure RegisteredTokenAccount where
  swap_rate : Nat
  max_native_swap_amount : Nat
deriving DecidableEq

/-- processor/admin/update_swap_rate.rs, `update_swap_rate`, together with
its Anchor accounts context `UpdateSwapRate`: resolving the
`registered_token` account fails with Anchor's `AccountNotInitialized` when
no account exists at the mint's PDA (i.e. the token is not registered); the
handler then requires the signer to be the owner or assistant and the new
rate to be positive, and updates only the `swap_rate` field. -/
def update_swap_rate (signer : Nat) (oc : OwnerConfig)
    (registered_token : Option RegisteredTokenAccount) (swap_rate : Nat) :
    Except TokenBridgeRelayerError RegisteredTokenAccount :=
  match registered_token with
  | none => .error .AccountNotInitialized
  | some rt =>
    if ¬ oc.is_authorized signer then .error .OwnerOrAssistantOnly
    else if ¬ 0 < swap_rate then .error .ZeroSwapRate
    else .ok { rt with swap_rate := swap_rate }

/-- Claim C9: `update_swap_rate` succeeds only when the caller is the owner
or the assistant and the new rate is nonzero; every call targeting an
unregistered token (no account at the mint's PDA in this snapshot) fails;
and on success only the `swap_rate` field of the token account changes. -/
theorem C9_update_swap_rate_rules (signer rate : Nat) (oc : OwnerConfig)
    (rt? : Option RegisteredTokenAccount) :
    (∀ rt', update_swap_rate signer oc rt? rate = .ok rt' →
      oc.is_authorized signer = true ∧ 0 < rate ∧
        ∃ rt, rt? = some rt ∧ rt' = { rt with swap_rate := rate }) ∧
    (rt? = none →
      update_swap_rate signer oc rt? rate = .error .AccountNotInitialized) := by
  constructor
  · intro rt' h
    rcases rt? with _ | rt
    · exact absurd h (by simp [update_swap_rate])
    · unfold update_swap_rate at h
      replace h : (if ¬ oc.is_authorized signer = true then
          (Except.error TokenBridgeRelayerError.OwnerOrAssistantOnly :
            Except TokenBridgeRelayerError RegisteredTokenAccount)
        else if ¬ 0 < rate then
          Except.error TokenBridgeRelayerError.ZeroSwapRate
        else Except.ok { rt with swap_rate := rate }) = Except.ok rt' := h
      by_cases h1 : oc.is_authorized signer = true
      · rw [if_neg (not_not_intro h1)] at h
        by_cases h2 : 0 < rate
        · rw [if_neg (not_not_intro h2)] at h
          simp only [Except.ok.injEq] at h
          exact ⟨h1, h2, rt, rfl, h.symm⟩
        · rw [if_pos h2] at h
          exact absurd h (by simp)
      · rw [if_pos h1] at h
        exact absurd h (by simp)
  · intro h
    subst h
    rfl

/-- Witness for C9: the assistant (key 4) updates a registered token's swap
rate to 5; only `swap_rate` changes. -/
theorem C9_update_swap_rate_rules_witness :
    (OwnerConfig.is_authorized ⟨3, 4, none⟩ 4 = true ∧ 0 < 5 ∧
      ∃ rt, some (⟨9, 11⟩ : RegisteredTokenAccount) = some rt ∧
        (⟨5, 11⟩ : RegisteredTokenAccount) =
          { rt with swap_rate := 5 }) ∧
    update_swap_rate 4 ⟨3, 4, none⟩ none 5 =
      .error .AccountNotInitialized :=
  ⟨(C9_update_swap_rate_rules 4 5 ⟨3, 4, none⟩ (some ⟨9, 11⟩)).1 ⟨5, 11⟩
      rfl,
    (C9_update_swap_rate_rules 4 5 ⟨3, 4, none⟩ none).2 rfl⟩

/-- The payments dispatched by one inbound redemption: lamports released to
the payer by closing the temporary (wrapped-SOL) token account, lamports the
payer sends the recipient, and the token amounts sent to the fee recipient's
and the recipient's token accounts. -/
structure RedeemOutcome where
  lamports_unwrapped_to_payer : Nat
  lamports_to_recipient : Nat
  tokens_to_fee_recipient : Nat
  tokens_to_recipient : Nat
deriving DecidableEq

/-- processor/complete_native_transfer_with_relay.rs, the payment logic of
`complete_native_transfer_with_relay` (lines 189-392) after the Token Bridge
redemption deposits the denormalized `amount` into the temporary custody
account.  `vaa_amount`, `target_relayer_fee` and `to_native_token_amount`
are the normalized values carried by the VAA; `mint_is_native` is the
comparison of the mint key against `spl_token::native_mint::ID`;
`payer_is_recipient` compares the payer and recipient keys;
`rt_swap_rate`/`rt_max_native` are the redeemed token's registered fields,
`sol_swap_rate` the native SOL registered token's swap rate and
`swap_rate_precision` the redeemer config's precision.  `none` embeds an
aborted transaction: a failed `require!`, a failed swap calculation
(`InvalidSwapCalculation`), or a token transfer that cannot be funded (the
custody account holds exactly `amount`, so paying the fee recipient more
than `amount` — or a `u64`-overflowing `token_amount_in + fee` — aborts). -/
def complete_native_transfer_with_relay
    (is_registered mint_is_native payer_is_recipient : Bool)
    (vaa_amount target_relayer_fee to_native_token_amount decimals
      rt_swap_rate rt_max_native sol_swap_rate swap_rate_precision : Nat) :
    Option RedeemOutcome :=
  if is_registered = false then none
  else
    if mint_is_native then
      if payer_is_recipient then
        some ⟨denormalize_amount vaa_amount decimals, 0, 0, 0⟩
      else if denormalize_amount target_relayer_fee decimals ≤
          denormalize_amount vaa_amount decimals then
        some ⟨denormalize_amount vaa_amount decimals,
          denormalize_amount vaa_amount decimals -
            denormalize_amount target_relayer_fee decimals, 0, 0⟩
      else none
    else
      if payer_is_recipient then
        some ⟨0, 0, 0, denormalize_amount vaa_amount decimals⟩
      else
        match calculate_native_swap_amounts rt_swap_rate rt_max_native
            decimals sol_swap_rate swap_rate_precision
            (denormalize_amount to_native_token_amount decimals) with
        | none => none
        | some (token_amount_in, native_amount_out) =>
          if token_amount_in + denormalize_amount target_relayer_fee decimals
              < U64_BOUND ∧
              token_amount_in + denormalize_amount target_relayer_fee decimals
              ≤ denormalize_amount vaa_amount decimals then
            some ⟨0, native_amount_out,
              token_amount_in + denormalize_amount target_relayer_fee decimals,
              denormalize_amount vaa_amount decimals -
                (token_amount_in +
                  denormalize_amount target_relayer_fee decimals)⟩
          else none

/-- Claim C2: on a completed inbound redemption of a non-native token with
payer ≠ recipient, where `amount` and `fee` are the denormalized VAA amount
and relayer fee and `(token_amount_in, native_amount_out)` is the swap
calculator's result, the fee recipient is paid `token_amount_in + fee`
tokens, the recipient is paid `amount - (token_amount_in + fee)` tokens, the
two token payments sum exactly to `amount`, and the payer-funded lamport
payment equals `native_amount_out`. -/
theorem C2_redeem_payment_split (vaa_amount target_fee to_native d sr mx ssr
    p t o : Nat)
    (hswap : calculate_native_swap_amounts sr mx d ssr p
      (denormalize_amount to_native d) = some (t, o))
    (out : RedeemOutcome)
    (h : complete_native_transfer_with_relay true false false vaa_amount
      target_fee to_native d sr mx ssr p = some out) :
    out.tokens_to_fee_recipient = t + denormalize_amount target_fee d ∧
    out.tokens_to_recipient = denormalize_amount vaa_amount d -
      (t + denormalize_amount target_fee d) ∧
    out.tokens_to_fee_recipient + out.tokens_to_recipient =
      denormalize_amount vaa_amount d ∧
    out.lamports_to_recipient = o := by
  unfold complete_native_transfer_with_relay at h
  rw [if_neg (by simp)] at h
  simp only [Bool.false_eq_true, if_false, hswap] at h
  by_cases hg : t + denormalize_amount target_fee d < U64_BOUND ∧
      t + denormalize_amount target_fee d ≤ denormalize_amount vaa_amount d
  · rw [if_pos hg] at h
    simp only [Option.some.injEq] at h
    subst h
    refine ⟨rfl, rfl, ?_, rfl⟩
    simp only
    omega
  · rw [if_neg hg] at h
    exact absurd h (by simp)

/-- Witness for C2: the source test vector at 8 decimals (swap result
`(10000000000, 2380952380)`), amount 20000000000 and fee 1000000. -/
theorem C2_redeem_payment_split_witness :
    (10001000000 : Nat) = 10000000000 + denormalize_amount 1000000 8 ∧
    (9999000000 : Nat) = denormalize_amount 20000000000 8 -
      (10000000000 + denormalize_amount 1000000 8) ∧
    (10001000000 : Nat) + 9999000000 = denormalize_amount 20000000000 8 ∧
    (2380952380 : Nat) = 2380952380 :=
  C2_redeem_payment_split 20000000000 1000000 10000000000 8 1000000000
    10000000000 42000000000 100000000 10000000000 2380952380 (by decide)
    ⟨0, 2380952380, 10001000000, 9999000000⟩ (by decide)

/-- Claim C10: when the redeemed mint is wrapped SOL, the redemption never
invokes the swap calculator (the outcome is independent of the requested
to-native amount and of every swap-rate parameter), all redeemed lamports
are unwrapped to the payer, and when payer ≠ recipient the recipient is paid
exactly `amount - fee` lamports so that the payer retains exactly the
denormalized relayer fee; when payer = recipient no onward payment is made. -/
theorem C10_native_mint_unwrap (b : Bool) (vaa_amount target_fee d : Nat)
    (tn tn' sr sr' mx mx' ssr ssr' p p' : Nat) :
    (complete_native_transfer_with_relay true true b vaa_amount target_fee
        tn d sr mx ssr p =
      complete_native_transfer_with_relay true true b vaa_amount target_fee
        tn' d sr' mx' ssr' p') ∧
    (denormalize_amount target_fee d ≤ denormalize_amount vaa_amount d →
      complete_native_transfer_with_relay true true false vaa_amount
          target_fee tn d sr mx ssr p =
        some ⟨denormalize_amount vaa_amount d,
          denormalize_amount vaa_amount d -
            denormalize_amount target_fee d, 0, 0⟩ ∧
      denormalize_amount vaa_amount d -
        (denormalize_amount vaa_amount d -
          denormalize_amount target_fee d) =
        denormalize_amount target_fee d) ∧
    (complete_native_transfer_with_relay true true true vaa_amount target_fee
        tn d sr mx ssr p =
      some ⟨denormalize_amount vaa_amount d, 0, 0, 0⟩) := by
  refine ⟨?_, fun hle => ⟨?_, by omega⟩, ?_⟩
  · unfold complete_native_transfer_with_relay
    rcases b <;> rfl
  · unfold complete_native_transfer_with_relay
    rw [if_neg (by simp), if_pos rfl, if_neg (by simp), if_pos hle]
  · unfold complete_native_transfer_with_relay
    rw [if_neg (by simp), if_pos rfl, if_pos rfl]

/-- Witness for C10: a wrapped-SOL redemption of VAA amount 100 (8 decimals)
with fee 10: the payer keeps 10 of the 100 unwrapped lamports. -/
theorem C10_native_mint_unwrap_witness :
    (complete_native_transfer_with_relay true true false 100 10 55 8 1 2 3 4 =
      complete_native_transfer_with_relay true true false 100 10 66 8 5 6 7 8)
    ∧ (complete_native_transfer_with_relay true true false 100 10 55 8 1 2 3 4
        = some ⟨denormalize_amount 100 8,
            denormalize_amount 100 8 - denormalize_amount 10 8, 0, 0⟩ ∧
      denormalize_amount 100 8 -
        (denormalize_amount 100 8 - denormalize_amount 10 8) =
        denormalize_amount 10 8) ∧
    complete_native_transfer_with_relay true true true 100 10 55 8 1 2 3 4 =
      some ⟨denormalize_amount 100 8, 0, 0, 0⟩ := by
  have h := C10_native_mint_unwrap false 100 10 8 55 66 1 5 2 6 3 7 4 8
  exact ⟨h.1, h.2.1 (by decide), h.2.2⟩

end TokenBridgeRelayer
